import Mathlib

/-!
# Verification of the certificate issuance and verification subsystem

A shallow embedding of the certificate subsystem of the Course-Platform
repository (`app/utils/certificate.py`, the certificate-related models in
`app/models.py`, the certificate blueprint `app/blueprints/certificates/routes.py`
and the template admin routes in `app/blueprints/admin/routes.py`),
together with proofs about issuance idempotence, eligibility gating,
template resolution, verification, failure handling, the single-default
template invariant and color parsing.

Database state is modelled as lists of rows; the filesystem as an
association list from paths to file contents; the `writeOk` flag models
whether the storage medium accepts writes (a `False` value stands for a
disk-full / permission-denied condition under which every `canvas.save()`
raises).  Fresh UUIDs and the current date are passed as explicit
parameters, since the Python code draws each exactly once per call.
-/

namespace CoursePlatform

/-! ## Data model (from `app/models.py`) -/

/-- `User` model: the fields the certificate subsystem reads. -/
structure User where
  id : Nat
  name : String
  email : String
deriving Repr, DecidableEq

/-- `Course` model: the fields the certificate subsystem reads.
`certificate_template_id` is the nullable foreign key into
`certificate_templates` added by the admin course form. -/
structure Course where
  id : Nat
  title : String
  has_certificate : Bool
  certificate_template_id : Option Nat
deriving Repr, DecidableEq

/-- `UserCourse` model (the enrollment): completion signal for issuance. -/
structure UserCourse where
  user_id : Nat
  course_id : Nat
  completed : Bool
deriving Repr, DecidableEq

/-- `Certificate` model: `id` is the integer primary key,
`certificate_id` the externally exposed unique string identifier,
`file_path` the storage path relative to the static folder and
`issue_date` an abstract day stamp. -/
structure Certificate where
  id : Nat
  user_id : Nat
  course_id : Nat
  certificate_id : String
  file_path : String
  issue_date : Nat
deriving Repr, DecidableEq

/-- `CertificateSettings` model: the global singleton row. -/
structure CertificateSettings where
  background_color : String
  border_color : String
  text_color : String
  signature_image : Option String
  logo_image : Option String
  certificate_title : String
  certificate_text : String
  footer_text : String
  instructor_name : String
  auto_issue : Bool
  send_email : Bool
deriving Repr, DecidableEq

/-- Column defaults of `CertificateSettings` in `app/models.py`. -/
def defaultCertificateSettings : CertificateSettings :=
  { background_color := "#FFFFFF"
    border_color := "#294767"
    text_color := "#000000"
    signature_image := none
    logo_image := none
    certificate_title := "CERTIFICATE OF COMPLETION"
    certificate_text := "has successfully completed the course"
    footer_text := ""
    instructor_name := "Course Instructor"
    auto_issue := true
    send_email := true }

/-- `CertificateTemplate` model. -/
structure CertificateTemplate where
  id : Nat
  name : String
  description : String
  background_color : String
  border_color : String
  text_color : String
  signature_path : Option String
  logo_path : Option String
  certificate_title : String
  certificate_text : String
  footer_text : String
  instructor_name : String
  font : String
  is_default : Bool
deriving Repr, DecidableEq

/-! ## Color parsing (`hex_to_rgb` inside `create_certificate_pdf`)

The Python helper slices the string (after `lstrip('#')`) into three
two-character pieces and feeds each to `int(piece, 16)`; any exception in
the generator is caught and `(0, 0, 0)` is returned.  We model Python's
`int(s, 16)` on ASCII strings: optional surrounding whitespace, an
optional sign, an optional `0x`/`0X` prefix, then hex digits with single
underscores allowed between digits.  CPython additionally maps Unicode
decimal digits (category Nd) and Unicode whitespace to their ASCII
counterparts before this parse; that transform fixes every ASCII
character, so the model below agrees with `int(s, 16)` exactly on ASCII
input, and every theorem about malformed input is stated for ASCII
characters only. -/

/-- A character in the ASCII range, where CPython's
decimal-and-space-to-ASCII transform is the identity (ASCII decimal
digits map to themselves and ASCII whitespace to whitespace), so the
parser model below matches `int(s, 16)`. -/
def isAsciiChar (c : Char) : Bool :=
  c.toNat < 128

/-- Whitespace for `int()`: the ASCII members of `Py_UNICODE_ISSPACE`,
namely codepoints 9-13 (TAB, LF, VT, FF, CR) and 28-32 (FS, GS, RS, US,
space). -/
def isPySpace (c : Char) : Bool :=
  (9 ≤ c.toNat && c.toNat ≤ 13) || (28 ≤ c.toNat && c.toNat ≤ 32)

/-- Value of a hexadecimal digit, `none` on a non-digit (codepoint
ranges 48-57 for `0`-`9`, 97-102 for `a`-`f`, 65-70 for `A`-`F`). -/
def hexDigitVal (c : Char) : Option Nat :=
  if 48 ≤ c.toNat ∧ c.toNat ≤ 57 then some (c.toNat - 48)
  else if 97 ≤ c.toNat ∧ c.toNat ≤ 102 then some (c.toNat - 97 + 10)
  else if 65 ≤ c.toNat ∧ c.toNat ≤ 70 then some (c.toNat - 65 + 10)
  else none

/-- Digits after the first one: a single `_` may separate two digits
(the run may not end with `_`, and `__` is rejected). -/
def hexTail (acc : Nat) : List Char → Option Nat
  | [] => some acc
  | c :: cs =>
    if c = '_' then
      match cs with
      | [] => none
      | c2 :: cs2 =>
        match hexDigitVal c2 with
        | some v => hexTail (acc * 16 + v) cs2
        | none => none
    else
      match hexDigitVal c with
      | some v => hexTail (acc * 16 + v) cs
      | none => none

/-- A nonempty run of hex digits (underscore separators allowed, but the
run may neither start nor end with `_`). -/
def hexNum : List Char → Option Nat
  | [] => none
  | c :: cs =>
    match hexDigitVal c with
    | some v => hexTail v cs
    | none => none

/-- The unsigned part of Python's `int(s, 16)`: an optional `0x`/`0X`
prefix (optionally followed by one underscore), then hex digits. -/
def pyIntHexCore (cs : List Char) : Option Nat :=
  match cs with
  | c0 :: x :: rest =>
    if c0 = '0' ∧ (x = 'x' ∨ x = 'X') then
      if rest.head? = some '_' then hexNum rest.tail else hexNum rest
    else hexNum (c0 :: x :: rest)
  | _ => hexNum cs

/-- Python's `int(s, 16)` on a list of characters: strip whitespace on
both sides, accept an optional sign, then the unsigned hex literal.
Exact on ASCII input; CPython's prior transform of non-ASCII Unicode
digits and whitespace is not modelled (see the section comment). -/
def pyIntHexL (cs0 : List Char) : Option Int :=
  match ((cs0.dropWhile isPySpace).reverse.dropWhile isPySpace).reverse with
  | [] => (pyIntHexCore []).map Int.ofNat
  | c :: rest =>
    if c = '+' then (pyIntHexCore rest).map Int.ofNat
    else if c = '-' then (pyIntHexCore rest).map (fun n => -(Int.ofNat n))
    else (pyIntHexCore (c :: rest)).map Int.ofNat

/-- The two-character slice `s[i:i+2]` (Python slicing clamps). -/
def slice2 (cs : List Char) (i : Nat) : List Char :=
  (cs.drop i).take 2

/-- The characters that can appear in a string accepted by
`int(s, 16)`: hex digits, a sign, an underscore separator, the `x`/`X`
of a `0x` prefix, or whitespace.  An *ASCII* character outside this set
(such as the letters of `"not-a-color"`) survives CPython's
decimal-and-space-to-ASCII transform unchanged and is guaranteed to make
the parse fail; non-ASCII characters (Unicode decimal digits, Unicode
whitespace) are outside the model's scope. -/
def allowedIntChar (c : Char) : Bool :=
  (hexDigitVal c).isSome || c = '+' || c = '-' || c = '_' || c = 'x' || c = 'X' ||
    isPySpace c

/-- `hex_to_rgb` from `create_certificate_pdf`: strip leading `#`
characters, parse the three two-character slices, divide by 255; on any
failure return `(0, 0, 0)` (the comment in the source reads
"Default to black in case of error"). -/
def hex_to_rgb (s : String) : ℚ × ℚ × ℚ :=
  let cs := s.data.dropWhile (fun c => c = '#')
  match pyIntHexL (slice2 cs 0), pyIntHexL (slice2 cs 2), pyIntHexL (slice2 cs 4) with
  | some r, some g, some b => ((r : ℚ) / 255, (g : ℚ) / 255, (b : ℚ) / 255)
  | _, _, _ => (0, 0, 0)

/-! ## Rendered documents and the filesystem -/

/-- The observable content drawn by `create_certificate_pdf`.  Geometry
(fixed coordinates, font sizes) is omitted; every datum that varies with
the inputs is kept. -/
structure Document where
  bg_color : ℚ × ℚ × ℚ
  border_color : ℚ × ℚ × ℚ
  text_color : ℚ × ℚ × ℚ
  watermark : String
  platform_name : String
  logo : Option String
  title : String
  holder_name : String
  body_text : String
  course_title : String
  issue_date : Nat
  verify_url : String
  signature : Option String
  instructor : String
  footer : Option String
  certificate_id : String
deriving Repr, DecidableEq

/-- Contents of a file in the modelled static folder. -/
inductive FileData where
  | pdf (d : Document)
  | image
deriving Repr, DecidableEq

/-- The whole world state: database tables, static-folder files, a flag
telling whether storage accepts writes, and the log of certificate
e-mails handed to the email collaborator. -/
structure State where
  users : List User
  courses : List Course
  user_courses : List UserCourse
  certificates : List Certificate
  cert_settings : List CertificateSettings
  cert_templates : List CertificateTemplate
  files : List (String × FileData)
  writeOk : Bool
  emails : List (Nat × Nat)
deriving Repr, DecidableEq

/-- `os.path.join(current_app.static_folder, p)`. -/
def staticJoin (p : String) : String := "static/" ++ p

/-- `os.path.exists` over the modelled static folder. -/
def fileExists (path : String) (s : State) : Bool :=
  s.files.any (fun f => f.1 = path)

/-- Write (or overwrite) a file. -/
def writeFile (path : String) (d : FileData) (s : State) : State :=
  { s with files := (path, d) :: s.files.filter (fun f => ¬ f.1 = path) }

/-! ## Row lookups (SQLAlchemy `query.get` / `filter_by(...).first()`) -/

/-- `User.query.get(user_id)`. -/
def getUser (uid : Nat) (s : State) : Option User :=
  s.users.find? (fun u => u.id == uid)

/-- `Course.query.get(course_id)`. -/
def getCourse (cid : Nat) (s : State) : Option Course :=
  s.courses.find? (fun c => c.id == cid)

/-- `UserCourse.query.filter_by(user_id=..., course_id=...).first()`. -/
def findEnrollment (uid cid : Nat) (s : State) : Option UserCourse :=
  s.user_courses.find? (fun e => e.user_id == uid && e.course_id == cid)

/-- `Certificate.query.filter_by(user_id=..., course_id=...).first()`. -/
def findCert (uid cid : Nat) (s : State) : Option Certificate :=
  s.certificates.find? (fun c => c.user_id == uid && c.course_id == cid)

/-- All certificate rows for a `(user, course)` pair. -/
def certsFor (uid cid : Nat) (s : State) : List Certificate :=
  s.certificates.filter (fun c => c.user_id == uid && c.course_id == cid)

/-- `CertificateSettings.get_settings()`: return the first row, creating
one with the column defaults (and committing it) when none exists. -/
def getSettings (s : State) : CertificateSettings × State :=
  match s.cert_settings.head? with
  | some st => (st, s)
  | none =>
    (defaultCertificateSettings, { s with cert_settings := [defaultCertificateSettings] })

/-! ## The renderer (`create_certificate_pdf`) -/

/-- Python truthiness of a nullable string column. -/
def strTruthy : Option String → Bool
  | none => false
  | some s => !s.isEmpty

/-- The document `create_certificate_pdf` draws when the full pipeline
succeeds.  The style source is the `CertificateSettings` row; empty
strings fall back through Python's `or` to the hard-coded defaults; the
logo / signature images are drawn only when the column is truthy and the
file exists under the static folder. -/
def mkDocument (settings : CertificateSettings) (user : User) (course : Course)
    (cert : Certificate) (s : State) : Document :=
  { bg_color := hex_to_rgb settings.background_color
    border_color := hex_to_rgb settings.border_color
    text_color := hex_to_rgb settings.text_color
    watermark := "CERTIFIED"
    platform_name := "Learning Platform"
    logo :=
      if strTruthy settings.logo_image ∧
          fileExists (staticJoin (settings.logo_image.getD "")) s then
        settings.logo_image
      else none
    title :=
      if settings.certificate_title = "" then "CERTIFICATE OF COMPLETION"
      else settings.certificate_title
    holder_name := user.name
    body_text :=
      if settings.certificate_text = "" then "has successfully completed the course"
      else settings.certificate_text
    course_title := course.title
    issue_date := cert.issue_date
    verify_url := "certificates/verify/" ++ cert.certificate_id
    signature :=
      if strTruthy settings.signature_image ∧
          fileExists (staticJoin (settings.signature_image.getD "")) s then
        settings.signature_image
      else none
    instructor :=
      if settings.instructor_name = "" then "Course Instructor"
      else settings.instructor_name
    footer := if settings.footer_text = "" then none else some settings.footer_text
    certificate_id := cert.certificate_id }

/-- `create_certificate_pdf(certificate, user, course, output_path)`.

The body is one big `try`: `CertificateSettings.get_settings()` runs
first and its commit survives any later exception.  A `None` user or
course raises `AttributeError` at `user.name` / `course.title`, which the
fallback block hits again, so the function returns `False` without
writing.  When storage refuses writes, `canvas.save()` raises in both the
main and the fallback path, so again no file appears and `False` is
returned.  Otherwise the document is written at `output_path` and the
function returns `True`.  (The `except` branches around
`colors.Color(*hex_to_rgb(...))` are unreachable: `hex_to_rgb` already
catches every parse error and always returns a well-formed triple, so the
"white background" fallback in the source is dead code.) -/
def create_certificate_pdf (cert : Certificate) (user : Option User)
    (course : Option Course) (output_path : String) (s : State) : State × Bool :=
  let gs := getSettings s
  match user, course with
  | some u, some c =>
    if gs.2.writeOk then
      (writeFile output_path (FileData.pdf (mkDocument gs.1 u c cert gs.2)) gs.2, true)
    else (gs.2, false)
  | _, _ => (gs.2, false)

/-! ## The issuance engine (`generate_certificate`,
`issue_certificate_on_course_completion`) -/

/-- The relative storage path `f"uploads/certificates/certificate_{certificate_id}.pdf"`. -/
def certFilePath (fid : String) : String :=
  "uploads/certificates/certificate_" ++ fid ++ ".pdf"

/-- The row `generate_certificate` builds before committing. -/
def mkCert (s : State) (uid cid : Nat) (fid : String) (now : Nat) : Certificate :=
  { id := s.certificates.length + 1
    user_id := uid
    course_id := cid
    certificate_id := fid
    file_path := certFilePath fid
    issue_date := now }

/-- `generate_certificate(user_id, course_id)`.

`fid` is the single `str(uuid.uuid4())` the call draws, `now` the current
date.  The commit enforces the unique constraint on `certificate_id`; a
violation raises `IntegrityError`, which the `except` block answers with
`rollback()` and `return None` — there is no retry loop.  (The
`(user_id, course_id)` unique constraint cannot fire here because the
function already returned the existing row when one was found.)  After a
successful commit, a failure to produce the file raises, and the
`rollback()` in the handler does not undo the already-committed row. -/
def generate_certificate (uid cid : Nat) (fid : String) (now : Nat) (s : State) :
    State × Option Certificate :=
  match findCert uid cid s with
  | some ex =>
    -- Existing certificate: self-heal a missing PDF, then return it.
    let pdf_path := staticJoin ex.file_path
    if fileExists pdf_path s then (s, some ex)
    else
      let r := create_certificate_pdf ex (getUser uid s) (getCourse cid s) pdf_path s
      (r.1, some ex)
  | none =>
    match getUser uid s, getCourse cid s with
    | some user, some course =>
      if course.has_certificate then
        let cert := mkCert s uid cid fid now
        if s.certificates.any (fun c => c.certificate_id == fid) then
          (s, none)
        else
          let s₁ := { s with certificates := s.certificates ++ [cert] }
          let r := create_certificate_pdf cert (some user) (some course)
            (staticJoin (certFilePath fid)) s₁
          if fileExists (staticJoin (certFilePath fid)) r.1 then (r.1, some cert)
          else (r.1, none)
      else (s, none)
    | _, _ => (s, none)

/-- `issue_certificate_on_course_completion(user_id, course_id)`:
course gate, idempotency check, enrollment gate, `auto_issue` gate, then
`generate_certificate`; on success with `send_email` set, the certificate
e-mail is handed to the email collaborator (modelled as a log entry). -/
def issue_certificate_on_course_completion (uid cid : Nat) (fid : String) (now : Nat)
    (s : State) : State × Option Certificate :=
  match getCourse cid s with
  | none => (s, none)
  | some course =>
    if course.has_certificate then
      match findCert uid cid s with
      | some ex => (s, some ex)
      | none =>
        match findEnrollment uid cid s with
        | none => (s, none)
        | some e =>
          if e.completed then
            let gs := getSettings s
            if gs.1.auto_issue then
              let r := generate_certificate uid cid fid now gs.2
              match r.2 with
              | some cert =>
                if gs.1.send_email then
                  ({ r.1 with emails := (uid, cid) :: r.1.emails }, some cert)
                else (r.1, some cert)
              | none => (r.1, none)
            else (gs.2, none)
          else (s, none)
    else (s, none)

/-- Iterated issuance: run `issue_certificate_on_course_completion` once
per `(freshId, now)` parameter pair, threading the state. -/
def issueTimes (uid cid : Nat) : List (String × Nat) → State → State × List (Option Certificate)
  | [], s => (s, [])
  | p :: ps, s =>
    let r := issue_certificate_on_course_completion uid cid p.1 p.2 s
    let rest := issueTimes uid cid ps r.1
    (rest.1, r.2 :: rest.2)

/-! ## The verification service -/

/-- `verify_certificate(certificate_id)`: pure lookup by the opaque
identifier. -/
def verify_certificate (cid : String) (s : State) : Option Certificate :=
  s.certificates.find? (fun c => c.certificate_id == cid)

/-- Body of the `/certificates/api/verify/<certificate_id>` response. -/
inductive VerifyResponse where
  | valid (certificate_id course_title user_name : String) (issue_date : Nat)
  | invalid
deriving Repr, DecidableEq

/-- `api_verify` route: on a hit it dereferences
`Course.query.get(...).title` and `User.query.get(...).name`, which would
raise (`Except.error`) if either row were missing; on a miss it returns
the `valid: false` JSON body with status 404 — no exception. -/
def api_verify (cid : String) (s : State) : Except Unit VerifyResponse :=
  match verify_certificate cid s with
  | none => Except.ok VerifyResponse.invalid
  | some cert =>
    match getCourse cert.course_id s, getUser cert.user_id s with
    | some course, some user =>
      Except.ok (VerifyResponse.valid cert.certificate_id course.title user.name
        cert.issue_date)
    | _, _ => Except.error ()

/-! ## Template store operations (admin routes and
`CertificateTemplate.get_default_template`) -/

/-- The validated `CertificateTemplateForm` data. `logo` / `signature`
carry the uploaded file's stored name when a file was submitted. -/
structure CertificateTemplateForm where
  name : String
  description : String
  certificate_title : String
  certificate_text : String
  footer_text : String
  instructor_name : String
  border_color : String
  text_color : String
  background_color : String
  font : String
  is_default : Bool
  logo : Option String
  signature : Option String
deriving Repr, DecidableEq

/-- `new_certificate_template` POST handler: build the row from the form,
and when it is flagged default, first clear `is_default` on every row
that currently has it (`query.filter_by(is_default=True).update(...)`),
then insert. -/
def create_certificate_template (form : CertificateTemplateForm) (s : State) : State :=
  let tpl : CertificateTemplate :=
    { id := s.cert_templates.length + 1
      name := form.name
      description := form.description
      background_color := form.background_color
      border_color := form.border_color
      text_color := form.text_color
      signature_path := form.signature.map (fun n => "uploads/certificates/" ++ n)
      logo_path := form.logo.map (fun n => "uploads/certificates/" ++ n)
      certificate_title := form.certificate_title
      certificate_text := form.certificate_text
      footer_text := form.footer_text
      instructor_name := form.instructor_name
      font := form.font
      is_default := form.is_default }
  let tpls :=
    if form.is_default then
      s.cert_templates.map (fun t => if t.is_default then { t with is_default := false } else t)
    else s.cert_templates
  { s with cert_templates := tpls ++ [tpl] }

/-- `edit_certificate_template` POST handler: `get_or_404` the row, copy
the form fields onto it, and — only when the form flags it default while
the stored row is not — clear `is_default` on all currently-default rows
before assigning `template.is_default = form.is_default.data`. -/
def edit_certificate_template (tid : Nat) (form : CertificateTemplateForm) (s : State) : State :=
  match s.cert_templates.find? (fun t => t.id == tid) with
  | none => s
  | some old =>
    let unsetOthers := form.is_default && !old.is_default
    { s with cert_templates := s.cert_templates.map (fun t =>
        if t.id == tid then
          { t with
            name := form.name
            description := form.description
            certificate_title := form.certificate_title
            certificate_text := form.certificate_text
            footer_text := form.footer_text
            instructor_name := form.instructor_name
            border_color := form.border_color
            text_color := form.text_color
            background_color := form.background_color
            font := form.font
            is_default := form.is_default
            logo_path := match form.logo with
              | some n => some ("uploads/certificates/" ++ n)
              | none => t.logo_path
            signature_path := match form.signature with
              | some n => some ("uploads/certificates/" ++ n)
              | none => t.signature_path }
        else if unsetOthers && t.is_default then { t with is_default := false }
        else t) }

/-- `CertificateTemplate.get_default_template()`: first row with
`is_default=True`, creating (and committing) one with the hard-coded
baseline values when none exists. -/
def get_default_template (s : State) : CertificateTemplate × State :=
  match s.cert_templates.find? (fun t => t.is_default) with
  | some t => (t, s)
  | none =>
    let t : CertificateTemplate :=
      { id := s.cert_templates.length + 1
        name := "Default Certificate"
        description := "Default certificate template"
        background_color := "#FFFFFF"
        border_color := "#294767"
        text_color := "#000000"
        signature_path := none
        logo_path := none
        certificate_title := "CERTIFICATE OF COMPLETION"
        certificate_text := "has successfully completed the course"
        footer_text := ""
        instructor_name := "Course Instructor"
        font := "Arial, sans-serif"
        is_default := true }
    (t, { s with cert_templates := s.cert_templates ++ [t] })

/-- Number of default-flagged template rows. -/
def countDefault (s : State) : Nat :=
  (s.cert_templates.filter (fun t => t.is_default)).length

/-! ## Spec-side definition for the color refinement claim -/

/-- Written from the spec's words, for comparison with `hex_to_rgb`:
"a hex string (`#RRGGBB`) converts to a normalized 0-1 triple" — parse
exactly `#` followed by six hexadecimal digits. -/
def specHexTriple (s : String) : Option (ℚ × ℚ × ℚ) :=
  match s.data with
  | ['#', a, b, c, d, e, f] =>
    (hexDigitVal a).bind fun va =>
    (hexDigitVal b).bind fun vb =>
    (hexDigitVal c).bind fun vc =>
    (hexDigitVal d).bind fun vd =>
    (hexDigitVal e).bind fun ve =>
    (hexDigitVal f).map fun vf =>
      (((va * 16 + vb : ℕ) : ℚ) / 255, ((vc * 16 + vd : ℕ) : ℚ) / 255,
        ((ve * 16 + vf : ℕ) : ℚ) / 255)
  | _ => none

/-! ## Concrete fixtures used to instantiate the theorems -/

/-- A sample user. -/
def u1 : User := { id := 1, name := "Ada Lovelace", email := "ada@example.com" }

/-- A second sample user. -/
def u2 : User := { id := 2, name := "Grace Hopper", email := "grace@example.com" }

/-- A sample course with certificates enabled and no template reference. -/
def course1 : Course :=
  { id := 1, title := "Verification 101", has_certificate := true,
    certificate_template_id := none }

/-- A completed enrollment of `u1` in `course1`. -/
def e11 : UserCourse := { user_id := 1, course_id := 1, completed := true }

/-- An eligible base state: enrolled and completed, certificates enabled,
default settings (`auto_issue` on), empty certificate table, healthy
storage. -/
def sOK : State :=
  { users := [u1]
    courses := [course1]
    user_courses := [e11]
    certificates := []
    cert_settings := [defaultCertificateSettings]
    cert_templates := []
    files := []
    writeOk := true
    emails := [] }

/-- A pre-existing certificate row for the pair `(1, 1)`. -/
def exCert : Certificate :=
  { id := 1, user_id := 1, course_id := 1, certificate_id := "X",
    file_path := certFilePath "X", issue_date := 0 }

/-- Settings with automatic issuance disabled. -/
def stC2 : CertificateSettings := { defaultCertificateSettings with auto_issue := false }

/-- State for the C2 counterexample: a certificate already exists for the
pair and `auto_issue` is disabled. -/
def sC2 : State := { sOK with
  certificates := [exCert]
  cert_settings := [stC2] }

/-- A course with certificates disabled. -/
def courseA : Course := { course1 with has_certificate := false }

/-- State exercising the first gate: certificates disabled on the
course, everything else eligible. -/
def sGateA : State := { sOK with courses := [courseA] }

/-- An enrollment of `u1` in `course1` that is not completed. -/
def e11open : UserCourse := { e11 with completed := false }

/-- State exercising the second gate: enrollment present but not
completed, everything else eligible. -/
def sGateB : State := { sOK with user_courses := [e11open] }

/-- State exercising the third gate: `auto_issue` disabled, everything
else eligible and no certificate row for the pair. -/
def sGateC : State := { sOK with cert_settings := [stC2] }

/-- A sample template, referenced by the course in `sC3`. -/
def tpl1 : CertificateTemplate :=
  { id := 1, name := "Course template", description := ""
    background_color := "#FFFFFF", border_color := "#294767", text_color := "#112233"
    signature_path := none, logo_path := none
    certificate_title := "Template title", certificate_text := "Template body"
    footer_text := "", instructor_name := "Template teacher"
    font := "Arial, sans-serif", is_default := true }

/-- A course that references template 1. -/
def courseC3 : Course := { course1 with certificate_template_id := some 1 }

/-- Settings whose text color differs from `tpl1`'s. -/
def stC3 : CertificateSettings := { defaultCertificateSettings with text_color := "#445566" }

/-- State for the C3 counterexample: the course references `tpl1`, whose
text color differs from the settings singleton's text color. -/
def sC3 : State := { sOK with
  courses := [courseC3]
  cert_templates := [tpl1]
  cert_settings := [stC3] }

/-- State for the C5 counterexample: eligible, but storage rejects
writes. -/
def sC5 : State := { sOK with writeOk := false }

/-- State for the C9 counterexample: another user already holds a
certificate whose identifier is `"X"`. -/
def sC9 : State := { sOK with
  users := [u1, u2]
  certificates := [{ exCert with id := 7, user_id := 2 }] }

/-- Settings with a malformed background color string. -/
def stC8 : CertificateSettings :=
  { defaultCertificateSettings with background_color := "not-a-color" }

/-- State for the C8 counterexample: the settings carry a malformed
background color string. -/
def sC8 : State := { sOK with cert_settings := [stC8] }

/-- State for C6 and C10: the certificate row exists but no file backs
it. -/
def sC6 : State := { sOK with certificates := [exCert] }

/-- Template form data used to instantiate the C7 invariant. -/
def form1 : CertificateTemplateForm :=
  { name := "New default", description := ""
    certificate_title := "T", certificate_text := "B", footer_text := ""
    instructor_name := "I", border_color := "#000000", text_color := "#000000"
    background_color := "#FFFFFF", font := "Arial, sans-serif"
    is_default := true, logo := none, signature := none }

/-! ## Helper lemmas: the successful fresh-issuance path -/

/-- The state after a successful fresh issuance: the committed row plus
the rendered PDF under the deterministic storage path. -/
def freshIssueState (s : State) (st : CertificateSettings) (user : User) (course : Course)
    (uid cid : Nat) (fid : String) (now : Nat) : State :=
  { s with
    certificates := s.certificates ++ [mkCert s uid cid fid now]
    files := (staticJoin (certFilePath fid),
        FileData.pdf (mkDocument st user course (mkCert s uid cid fid now) s)) ::
      s.files.filter (fun f => ¬ f.1 = staticJoin (certFilePath fid)) }

/-- The state after `issue_certificate_on_course_completion` succeeds on
a fresh pair: the fresh-issuance state, plus the e-mail log entry when
`send_email` is enabled. -/
def postIssueState (s : State) (st : CertificateSettings) (user : User) (course : Course)
    (uid cid : Nat) (fid : String) (now : Nat) : State :=
  if st.send_email then
    { freshIssueState s st user course uid cid fid now with
      emails := (uid, cid) :: (freshIssueState s st user course uid cid fid now).emails }
  else freshIssueState s st user course uid cid fid now

/-- `mkDocument` reads the state only through its `files` field. -/
theorem mkDocument_files_congr (st : CertificateSettings) (u : User) (c : Course)
    (cert : Certificate) {s₁ s₂ : State} (h : s₁.files = s₂.files) :
    mkDocument st u c cert s₁ = mkDocument st u c cert s₂ := by
  unfold mkDocument fileExists
  rw [h]

theorem generate_fresh_success {s : State} {uid cid : Nat} {fid : String} {now : Nat}
    {user : User} {course : Course} {st : CertificateSettings}
    (hu : getUser uid s = some user) (hc : getCourse cid s = some course)
    (hhc : course.has_certificate = true)
    (hex : findCert uid cid s = none)
    (hfresh : s.certificates.any (fun c => c.certificate_id == fid) = false)
    (hset : s.cert_settings = [st])
    (hw : s.writeOk = true) :
    generate_certificate uid cid fid now s =
      (freshIssueState s st user course uid cid fid now, some (mkCert s uid cid fid now)) := by
  unfold generate_certificate
  rw [hex, hu, hc]
  simp only [hhc, if_true, hfresh, Bool.false_eq_true, if_false]
  unfold create_certificate_pdf getSettings
  simp only [hset, List.head?_cons, hw, if_true]
  unfold writeFile fileExists freshIssueState
  simp
  exact ⟨hset.symm, mkDocument_files_congr st user course _ rfl, hw⟩

theorem issue_fresh_success {s : State} {uid cid : Nat} {fid : String} {now : Nat}
    {user : User} {course : Course} {e : UserCourse} {st : CertificateSettings}
    (hu : getUser uid s = some user) (hc : getCourse cid s = some course)
    (hhc : course.has_certificate = true)
    (hex : findCert uid cid s = none)
    (he : findEnrollment uid cid s = some e) (hec : e.completed = true)
    (hset : s.cert_settings = [st]) (hai : st.auto_issue = true)
    (hfresh : s.certificates.any (fun c => c.certificate_id == fid) = false)
    (hw : s.writeOk = true) :
    issue_certificate_on_course_completion uid cid fid now s =
      (postIssueState s st user course uid cid fid now, some (mkCert s uid cid fid now)) := by
  unfold issue_certificate_on_course_completion
  rw [hc, hex, he]
  simp only [hhc, if_true, hec]
  unfold getSettings
  simp only [hset, List.head?_cons]
  rw [generate_fresh_success hu hc hhc hex hfresh hset hw]
  unfold postIssueState
  by_cases hm : st.send_email
  · simp [hm, hai]
  · simp [hm, hai]

/-- When a certificate row already exists for the pair and the course
still has certificates enabled, issuance returns it and leaves the state
untouched. -/
theorem issue_existing {s : State} {uid cid : Nat} {fid : String} {now : Nat}
    {course : Course} {c : Certificate}
    (hc : getCourse cid s = some course) (hhc : course.has_certificate = true)
    (hex : findCert uid cid s = some c) :
    issue_certificate_on_course_completion uid cid fid now s = (s, some c) := by
  unfold issue_certificate_on_course_completion
  rw [hc, hex]
  simp [hhc]

theorem issueTimes_existing {s : State} {uid cid : Nat} {course : Course} {c : Certificate}
    (hc : getCourse cid s = some course) (hhc : course.has_certificate = true)
    (hex : findCert uid cid s = some c) :
    ∀ ps : List (String × Nat),
      issueTimes uid cid ps s = (s, ps.map (fun _ => some c)) := by
  intro ps
  induction ps with
  | nil => rfl
  | cons p rest ih =>
    unfold issueTimes
    rw [issue_existing hc hhc hex]
    simp [ih]

theorem postIssueState_certificates (s : State) (st : CertificateSettings) (user : User)
    (course : Course) (uid cid : Nat) (fid : String) (now : Nat) :
    (postIssueState s st user course uid cid fid now).certificates =
      s.certificates ++ [mkCert s uid cid fid now] := by
  unfold postIssueState freshIssueState
  by_cases hm : st.send_email <;> simp [hm]

theorem postIssueState_courses (s : State) (st : CertificateSettings) (user : User)
    (course : Course) (uid cid : Nat) (fid : String) (now : Nat) :
    (postIssueState s st user course uid cid fid now).courses = s.courses := by
  unfold postIssueState freshIssueState
  by_cases hm : st.send_email <;> simp [hm]

theorem postIssueState_users (s : State) (st : CertificateSettings) (user : User)
    (course : Course) (uid cid : Nat) (fid : String) (now : Nat) :
    (postIssueState s st user course uid cid fid now).users = s.users := by
  unfold postIssueState freshIssueState
  by_cases hm : st.send_email <;> simp [hm]

theorem postIssueState_files (s : State) (st : CertificateSettings) (user : User)
    (course : Course) (uid cid : Nat) (fid : String) (now : Nat) :
    (postIssueState s st user course uid cid fid now).files =
      (staticJoin (certFilePath fid),
        FileData.pdf (mkDocument st user course (mkCert s uid cid fid now) s)) ::
      s.files.filter (fun f => ¬ f.1 = staticJoin (certFilePath fid)) := by
  unfold postIssueState freshIssueState
  by_cases hm : st.send_email <;> simp [hm]

/-- The freshly inserted row is found by the `(user, course)` lookup once
the old rows contain no row for the pair. -/
theorem findCert_after_insert {s : State} {uid cid : Nat} {fid : String} {now : Nat}
    (hex : findCert uid cid s = none) (certs : List Certificate)
    (hcerts : certs = s.certificates ++ [mkCert s uid cid fid now]) (s' : State)
    (h : s'.certificates = certs) :
    findCert uid cid s' = some (mkCert s uid cid fid now) := by
  unfold findCert at hex ⊢
  rw [h, hcerts, List.find?_append, hex]
  simp [mkCert]

/-- The freshly inserted row is found by the `certificate_id` lookup once
no old row carries the same identifier. -/
theorem verify_after_insert {s : State} {uid cid : Nat} {fid : String} {now : Nat}
    (hfresh : s.certificates.any (fun c => c.certificate_id == fid) = false)
    (s' : State)
    (h : s'.certificates = s.certificates ++ [mkCert s uid cid fid now]) :
    verify_certificate fid s' = some (mkCert s uid cid fid now) := by
  unfold verify_certificate
  rw [h, List.find?_append]
  have hnone : s.certificates.find? (fun c => c.certificate_id == fid) = none := by
    rw [List.find?_eq_none]
    intro x hx
    have := (List.any_eq_false.mp hfresh) x hx
    simpa using this
  rw [hnone]
  simp [mkCert]

/-! ## Claim theorems -/

/-- C1 — Idempotent issuance: in an eligible state with no certificate
for the `(user, course)` pair yet, invoking
`issue_certificate_on_course_completion` `N ≥ 1` times yields exactly one
`Certificate` row for the pair, and every invocation (the later ones with
arbitrary fresh identifiers and dates) returns the same certificate with
the same identifier, leaving the stored record unchanged. -/
theorem C1_idempotent_issuance
    (s : State) (uid cid : Nat) (user : User) (course : Course) (e : UserCourse)
    (st : CertificateSettings) (p : String × Nat) (ps : List (String × Nat))
    (hu : getUser uid s = some user) (hc : getCourse cid s = some course)
    (hhc : course.has_certificate = true)
    (hex : findCert uid cid s = none)
    (he : findEnrollment uid cid s = some e) (hec : e.completed = true)
    (hset : s.cert_settings = [st]) (hai : st.auto_issue = true)
    (hfresh : s.certificates.any (fun c => c.certificate_id == p.1) = false)
    (hw : s.writeOk = true) :
    ∃ cert : Certificate,
      cert.certificate_id = p.1 ∧
      (∀ r ∈ (issueTimes uid cid (p :: ps) s).2, r = some cert) ∧
      certsFor uid cid (issueTimes uid cid (p :: ps) s).1 = [cert] := by
  refine ⟨mkCert s uid cid p.1 p.2, rfl, ?_⟩
  have hstep := @issue_fresh_success s uid cid p.1 p.2 user course e st
    hu hc hhc hex he hec hset hai hfresh hw
  have hcerts := postIssueState_certificates s st user course uid cid p.1 p.2
  have hc' : getCourse cid (postIssueState s st user course uid cid p.1 p.2) =
      some course := by
    unfold getCourse at hc ⊢
    rw [postIssueState_courses]
    exact hc
  have hex' : findCert uid cid (postIssueState s st user course uid cid p.1 p.2) =
      some (mkCert s uid cid p.1 p.2) :=
    findCert_after_insert hex _ rfl _ hcerts
  have hs' : issueTimes uid cid (p :: ps) s =
      (postIssueState s st user course uid cid p.1 p.2,
        some (mkCert s uid cid p.1 p.2) ::
          ps.map (fun _ => some (mkCert s uid cid p.1 p.2))) := by
    unfold issueTimes
    rw [hstep]
    dsimp only
    rw [issueTimes_existing hc' hhc hex' ps]
  rw [hs']
  constructor
  · intro r hr
    rcases List.mem_cons.mp hr with h | h
    · exact h
    · obtain ⟨a, _, h2⟩ := List.mem_map.mp h
      exact h2.symm
  · unfold certsFor
    rw [hcerts, List.filter_append]
    have h0 : s.certificates.filter (fun c => c.user_id == uid && c.course_id == cid) = [] := by
      rw [List.filter_eq_nil_iff]
      intro x hx
      have hnone := List.find?_eq_none.mp hex
      exact hnone x hx
    rw [h0]
    simp [mkCert]

/-- C2 (amended) — Eligibility gating: when no certificate row exists yet
for the pair, each of the three conditions — certificates disabled on the
course, enrollment absent or not completed, `auto_issue` disabled —
independently makes `issue_certificate_on_course_completion` return
`none` without touching the state.  The `has_certificate` gate applies
even when a certificate row exists, because it is checked first; but (as
the counterexample shows) when a row exists and the course has
certificates enabled, the idempotency path returns the existing row
before the enrollment and `auto_issue` conditions are consulted, so the
original claim's "for every (user, course) pair" quantification fails. -/
theorem C2_eligibility_gating_amended
    (s : State) (uid cid : Nat) (fid : String) (now : Nat) (st : CertificateSettings)
    (hset : s.cert_settings = [st]) :
    ((∀ course, getCourse cid s = some course → course.has_certificate = false) →
      issue_certificate_on_course_completion uid cid fid now s = (s, none)) ∧
    (findCert uid cid s = none →
      (∀ e, findEnrollment uid cid s = some e → e.completed = false) →
      issue_certificate_on_course_completion uid cid fid now s = (s, none)) ∧
    (findCert uid cid s = none → st.auto_issue = false →
      issue_certificate_on_course_completion uid cid fid now s = (s, none)) := by
  refine ⟨?_, ?_, ?_⟩
  · intro h
    unfold issue_certificate_on_course_completion
    cases hc : getCourse cid s with
    | none => rfl
    | some course => simp [h course hc]
  · intro hex h
    unfold issue_certificate_on_course_completion
    cases hc : getCourse cid s with
    | none => rfl
    | some course =>
      by_cases hhc : course.has_certificate = true
      · rw [hex]
        simp only [hhc, if_true]
        cases he : findEnrollment uid cid s with
        | none => rfl
        | some e => simp [h e he]
      · simp [hhc]
  · intro hex hai
    unfold issue_certificate_on_course_completion
    cases hc : getCourse cid s with
    | none => rfl
    | some course =>
      by_cases hhc : course.has_certificate = true
      · rw [hex]
        simp only [hhc, if_true]
        cases he : findEnrollment uid cid s with
        | none => rfl
        | some e =>
          by_cases hec : e.completed = true
          · unfold getSettings
            simp [hec, hset, hai]
          · simp [hec]
      · simp [hhc]

/-- C4 — Verification round-trip: after a successful fresh issuance, the
verification endpoint reports the certificate valid with the holder name
and course title equal to the issuing user's name and course's title and
with the original issue date; and for any identifier carried by no
certificate row, it reports invalid without raising. -/
theorem C4_verification_roundtrip
    (s : State) (uid cid : Nat) (fid : String) (now : Nat)
    (user : User) (course : Course) (e : UserCourse) (st : CertificateSettings)
    (hu : getUser uid s = some user) (hc : getCourse cid s = some course)
    (hhc : course.has_certificate = true)
    (hex : findCert uid cid s = none)
    (he : findEnrollment uid cid s = some e) (hec : e.completed = true)
    (hset : s.cert_settings = [st]) (hai : st.auto_issue = true)
    (hfresh : s.certificates.any (fun c => c.certificate_id == fid) = false)
    (hw : s.writeOk = true) :
    (∃ s₂ cert, issue_certificate_on_course_completion uid cid fid now s = (s₂, some cert) ∧
       cert.certificate_id = fid ∧
       api_verify fid s₂ =
         Except.ok (VerifyResponse.valid fid course.title user.name now)) ∧
    (∀ (s' : State) (q : String),
       (∀ c ∈ s'.certificates, ¬ c.certificate_id = q) →
       api_verify q s' = Except.ok VerifyResponse.invalid) := by
  constructor
  · refine ⟨postIssueState s st user course uid cid fid now, mkCert s uid cid fid now,
      issue_fresh_success hu hc hhc hex he hec hset hai hfresh hw, rfl, ?_⟩
    have hv : verify_certificate fid (postIssueState s st user course uid cid fid now) =
        some (mkCert s uid cid fid now) :=
      verify_after_insert hfresh _ (postIssueState_certificates s st user course uid cid fid now)
    have hc2 : getCourse (mkCert s uid cid fid now).course_id
        (postIssueState s st user course uid cid fid now) = some course := by
      unfold getCourse at hc ⊢
      rw [postIssueState_courses]
      exact hc
    have hu2 : getUser (mkCert s uid cid fid now).user_id
        (postIssueState s st user course uid cid fid now) = some user := by
      unfold getUser at hu ⊢
      rw [postIssueState_users]
      exact hu
    unfold api_verify
    rw [hv]
    dsimp only
    rw [hc2, hu2]
    rfl
  · intro s' q h
    unfold api_verify verify_certificate
    have hn : s'.certificates.find? (fun c => c.certificate_id == q) = none := by
      rw [List.find?_eq_none]
      intro x hx
      simpa using h x hx
    rw [hn]

/-- C5 (amended) — Storage-write failure: when every eligibility check
passes, the row is committed, and then the PDF cannot be produced (the
`writeOk` flag is down and no stale file sits at the target path), the
committed `Certificate` row stays in the database — the `rollback()` in
the exception handler cannot undo the earlier commit — but that
invocation reports failure by returning `None` rather than the existing
record; only a subsequent invocation returns the persisted row. -/
theorem C5_storage_failure_amended
    (s : State) (uid cid : Nat) (fid : String) (now : Nat)
    (user : User) (course : Course) (st : CertificateSettings)
    (hu : getUser uid s = some user) (hc : getCourse cid s = some course)
    (hhc : course.has_certificate = true)
    (hex : findCert uid cid s = none)
    (hfresh : s.certificates.any (fun c => c.certificate_id == fid) = false)
    (hset : s.cert_settings = [st])
    (hw : s.writeOk = false)
    (hnof : fileExists (staticJoin (certFilePath fid)) s = false) :
    generate_certificate uid cid fid now s =
      ({ s with certificates := s.certificates ++ [mkCert s uid cid fid now] }, none) ∧
    certsFor uid cid { s with certificates := s.certificates ++ [mkCert s uid cid fid now] } =
      [mkCert s uid cid fid now] ∧
    (∀ (fid' : String) (now' : Nat),
      generate_certificate uid cid fid' now'
          { s with certificates := s.certificates ++ [mkCert s uid cid fid now] } =
        ({ s with certificates := s.certificates ++ [mkCert s uid cid fid now] },
          some (mkCert s uid cid fid now))) := by
  have hcerts : ({ s with certificates := s.certificates ++ [mkCert s uid cid fid now] }
      : State).certificates = s.certificates ++ [mkCert s uid cid fid now] := rfl
  refine ⟨?_, ?_, ?_⟩
  · unfold generate_certificate
    rw [hex, hu, hc]
    simp only [hhc, if_true, hfresh, Bool.false_eq_true, if_false]
    unfold create_certificate_pdf getSettings
    unfold fileExists at hnof
    simp only [hset, List.head?_cons, hw, Bool.false_eq_true, if_false]
    unfold fileExists
    simp [hnof]
  · unfold certsFor
    rw [hcerts, List.filter_append]
    have h0 : s.certificates.filter (fun c => c.user_id == uid && c.course_id == cid) = [] := by
      rw [List.filter_eq_nil_iff]
      intro x hx
      exact List.find?_eq_none.mp hex x hx
    rw [h0]
    simp [mkCert]
  · intro fid' now'
    have hfind : findCert uid cid
        { s with certificates := s.certificates ++ [mkCert s uid cid fid now] } =
        some (mkCert s uid cid fid now) :=
      findCert_after_insert hex _ rfl _ hcerts
    unfold generate_certificate
    rw [hfind]
    dsimp only
    generalize hs₁ : ({ s with certificates := s.certificates ++ [mkCert s uid cid fid now] }
      : State) = s₁
    have hfiles : s₁.files = s.files := by rw [← hs₁]
    have hsettings : s₁.cert_settings = [st] := by rw [← hs₁]; exact hset
    have hwriteOk : s₁.writeOk = false := by rw [← hs₁]; exact hw
    have husers : s₁.users = s.users := by rw [← hs₁]
    have hcourses : s₁.courses = s.courses := by rw [← hs₁]
    have hcond : fileExists (staticJoin (mkCert s uid cid fid now).file_path) s₁ = false := by
      unfold fileExists
      rw [hfiles]
      exact hnof
    rw [hcond]
    simp only [Bool.false_eq_true, if_false]
    unfold create_certificate_pdf getSettings
    simp only [hsettings, List.head?_cons]
    have hu₁ : getUser uid s₁ = some user := by
      unfold getUser at hu ⊢
      rw [husers]
      exact hu
    have hc₁ : getCourse cid s₁ = some course := by
      unfold getCourse at hc ⊢
      rw [hcourses]
      exact hc
    rw [hu₁, hc₁]
    simp only [hwriteOk, Bool.false_eq_true, if_false]

/-- C6 — Self-healing regeneration: when a certificate row exists but its
backing PDF is missing from storage, `generate_certificate` regenerates
the file at the same recorded `file_path`, embedding the same certificate
identifier, returns the existing record, and adds no certificate row. -/
theorem C6_self_healing
    (s : State) (uid cid : Nat) (fid : String) (now : Nat)
    (user : User) (course : Course) (st : CertificateSettings) (c : Certificate)
    (hex : findCert uid cid s = some c)
    (hnof : fileExists (staticJoin c.file_path) s = false)
    (hu : getUser uid s = some user) (hc : getCourse cid s = some course)
    (hset : s.cert_settings = [st]) (hw : s.writeOk = true) :
    generate_certificate uid cid fid now s =
      (writeFile (staticJoin c.file_path)
        (FileData.pdf (mkDocument st user course c s)) s, some c) ∧
    (writeFile (staticJoin c.file_path)
        (FileData.pdf (mkDocument st user course c s)) s).certificates = s.certificates ∧
    fileExists (staticJoin c.file_path)
      (writeFile (staticJoin c.file_path)
        (FileData.pdf (mkDocument st user course c s)) s) = true ∧
    (mkDocument st user course c s).certificate_id = c.certificate_id := by
  refine ⟨?_, rfl, ?_, rfl⟩
  · unfold generate_certificate
    rw [hex]
    simp only [hnof, Bool.false_eq_true, if_false]
    unfold create_certificate_pdf getSettings
    rw [hu, hc]
    simp only [hset, List.head?_cons, hw, if_true]
  · unfold fileExists writeFile
    simp

/-- C9 (amended) — Identifier collision: when the freshly generated
identifier already belongs to an existing certificate, the commit is
rejected by the uniqueness constraint, `generate_certificate` rolls back
and returns `None` in that same single attempt — no retry with a fresh
identifier occurs — and the state (hence every existing certificate) is
left unchanged, so nothing is silently overwritten. -/
theorem C9_collision_amended
    (s : State) (uid cid : Nat) (fid : String) (now : Nat)
    (user : User) (course : Course)
    (hu : getUser uid s = some user) (hc : getCourse cid s = some course)
    (hhc : course.has_certificate = true)
    (hex : findCert uid cid s = none)
    (hcol : s.certificates.any (fun c => c.certificate_id == fid) = true) :
    generate_certificate uid cid fid now s = (s, none) := by
  unfold generate_certificate
  rw [hex, hu, hc]
  simp [hhc, hcol]

/-- C3 (amended) — Template resolution at render time: for every
issuance, the document written to storage is styled from the global
`CertificateSettings` singleton row (`CertificateSettings.get_settings()`
inside `create_certificate_pdf`) — its background, border and text colors
are parsed from the settings row's fields — regardless of the course's
`certificate_template_id` and of the contents of the
`certificate_templates` table.  The course's referenced
`CertificateTemplate` (and `get_default_template`) are never consulted by
the issuance render path; they feed only the admin preview renderer. -/
theorem C3_template_resolution_amended
    (s : State) (uid cid : Nat) (fid : String) (now : Nat)
    (user : User) (course : Course) (st : CertificateSettings)
    (hu : getUser uid s = some user) (hc : getCourse cid s = some course)
    (hhc : course.has_certificate = true)
    (hex : findCert uid cid s = none)
    (hfresh : s.certificates.any (fun c => c.certificate_id == fid) = false)
    (hset : s.cert_settings = [st])
    (hw : s.writeOk = true) :
    generate_certificate uid cid fid now s =
      (freshIssueState s st user course uid cid fid now, some (mkCert s uid cid fid now)) ∧
    (freshIssueState s st user course uid cid fid now).files.head? =
      some (staticJoin (certFilePath fid),
        FileData.pdf (mkDocument st user course (mkCert s uid cid fid now) s)) ∧
    (mkDocument st user course (mkCert s uid cid fid now) s).bg_color =
      hex_to_rgb st.background_color ∧
    (mkDocument st user course (mkCert s uid cid fid now) s).border_color =
      hex_to_rgb st.border_color ∧
    (mkDocument st user course (mkCert s uid cid fid now) s).text_color =
      hex_to_rgb st.text_color :=
  ⟨generate_fresh_success hu hc hhc hex hfresh hset hw, rfl, rfl, rfl, rfl⟩

/-- C10 — Verification is independent of the rendered file: both
`verify_certificate` and the `api_verify` endpoint compute the same
result on any two states that differ only in the filesystem; and a
persisted certificate row is reported valid (with its holder and course
data) even when no file exists at its recorded `file_path`. -/
theorem C10_verification_file_independent :
    (∀ (s : State) (fs : List (String × FileData)) (q : String),
       verify_certificate q { s with files := fs } = verify_certificate q s ∧
       api_verify q { s with files := fs } = api_verify q s) ∧
    (∀ (s : State) (c : Certificate) (course : Course) (user : User),
       c ∈ s.certificates →
       (∀ c' ∈ s.certificates, c'.certificate_id = c.certificate_id → c' = c) →
       getCourse c.course_id s = some course →
       getUser c.user_id s = some user →
       fileExists (staticJoin c.file_path) s = false →
       api_verify c.certificate_id s =
         Except.ok (VerifyResponse.valid c.certificate_id course.title user.name
           c.issue_date)) := by
  constructor
  · intro s fs q
    exact ⟨rfl, rfl⟩
  · intro s c course user hmem huniq hcourse huser _hnofile
    have hfind : verify_certificate c.certificate_id s = some c := by
      unfold verify_certificate
      have hsome : (s.certificates.find? (fun x => x.certificate_id == c.certificate_id)).isSome
          = true :=
        List.find?_isSome.mpr ⟨c, hmem, by simp⟩
      obtain ⟨c', hc'⟩ := Option.isSome_iff_exists.mp hsome
      have hpred := List.find?_some hc'
      have hmem' := List.mem_of_find?_eq_some hc'
      have : c' = c := huniq c' hmem' (by simpa using hpred)
      rw [hc', this]
    unfold api_verify
    rw [hfind]
    dsimp only
    rw [hcourse, huser]

/-! ## Helper lemmas for the default-template invariant -/

/-- After the bulk `update({'is_default': False})`, no row in the table
keeps the default flag. -/
theorem filter_default_unset (l : List CertificateTemplate) :
    (l.map (fun t => if t.is_default then { t with is_default := false } else t)).filter
      (fun t => t.is_default) = [] := by
  induction l with
  | nil => rfl
  | cons t ts ih => by_cases h : t.is_default = true <;> simp [h, ih]

/-- In a table with at most one default row, a default member is the only
possible default: every other row is non-default. -/
theorem default_unique_aux {old : CertificateTemplate} (hold : old.is_default = true) :
    ∀ l : List CertificateTemplate, old ∈ l →
      l.countP (fun t => t.is_default) ≤ 1 →
      ∀ t ∈ l, t ≠ old → t.is_default = false := by
  intro l
  induction l with
  | nil => intro h; cases h
  | cons a as ih =>
    intro hmem hcount t ht hne
    rw [List.countP_cons] at hcount
    rcases List.mem_cons.mp hmem with h1 | h1
    · subst h1
      simp only [hold, if_true] at hcount
      have hz : as.countP (fun t => t.is_default) = 0 := by omega
      rcases List.mem_cons.mp ht with rfl | hts
      · exact absurd rfl hne
      · have := List.countP_eq_zero.mp hz t hts
        simpa using this
    · rcases List.mem_cons.mp ht with rfl | hts
      · by_contra hdef
        have hdef' : t.is_default = true := by simpa using hdef
        have hpos : 0 < as.countP (fun x => x.is_default) :=
          List.countP_pos_iff.mpr ⟨old, h1, hold⟩
        simp only [hdef', if_true] at hcount
        omega
      · exact ih h1 (le_trans (Nat.le_add_right _ _) hcount) t hts hne

/-- Mapping a table whose row ids are distinct with a function that makes
exactly the row with id `tid` default yields exactly one default row. -/
theorem filter_default_map_unique
    (g : CertificateTemplate → CertificateTemplate) (tid : Nat) :
    ∀ l : List CertificateTemplate,
      (∀ t ∈ l, t.id = tid → (g t).is_default = true) →
      (∀ t ∈ l, t.id ≠ tid → (g t).is_default = false) →
      (l.map (fun t => t.id)).Nodup → tid ∈ l.map (fun t => t.id) →
      ((l.map g).filter (fun t => t.is_default)).length = 1 := by
  intro l
  induction l with
  | nil => intro _ _ _ hmem; simp at hmem
  | cons a as ih =>
    intro h1 h2 hnd hmem
    rw [List.map_cons] at hnd hmem
    have hnd1 : a.id ∉ as.map (fun t => t.id) := (List.nodup_cons.mp hnd).1
    have hnd2 := (List.nodup_cons.mp hnd).2
    rw [List.map_cons, List.filter_cons]
    rcases List.mem_cons.mp hmem with heq | hin
    · have hga : (g a).is_default = true := h1 a (List.mem_cons_self a as) heq.symm
      simp only [hga, if_true]
      have hrest : (as.map g).filter (fun t => t.is_default) = [] := by
        rw [List.filter_eq_nil_iff]
        intro x hx
        obtain ⟨t, ht, rfl⟩ := List.mem_map.mp hx
        have hne : t.id ≠ tid := by
          intro hidd
          apply hnd1
          rw [← heq, ← hidd]
          exact List.mem_map_of_mem (fun t => t.id) ht
        simp [h2 t (List.mem_cons_of_mem a ht) hne]
      rw [hrest]
      rfl
    · have ha : a.id ≠ tid := fun heq => hnd1 (heq ▸ hin)
      have hga : (g a).is_default = false := h2 a (List.mem_cons_self a as) ha
      simp only [hga, Bool.false_eq_true, if_false]
      exact ih (fun t ht => h1 t (List.mem_cons_of_mem a ht))
        (fun t ht => h2 t (List.mem_cons_of_mem a ht)) hnd2 hin

/-- C7 — Single-default-template invariant: (1) creating a template
flagged default leaves exactly one default row, whatever the table held;
(2) editing an existing template (distinct row ids) to default, starting
from a table with at most one default, leaves exactly one default row —
the previous default is unset in the same operation; (3) synthesizing the
default via `get_default_template` when none exists leaves exactly one
default row. -/
theorem C7_single_default_invariant :
    (∀ (s : State) (form : CertificateTemplateForm), form.is_default = true →
       countDefault (create_certificate_template form s) = 1) ∧
    (∀ (s : State) (tid : Nat) (form : CertificateTemplateForm) (old : CertificateTemplate),
       form.is_default = true →
       s.cert_templates.find? (fun t => t.id == tid) = some old →
       (s.cert_templates.map (fun t => t.id)).Nodup →
       countDefault s ≤ 1 →
       countDefault (edit_certificate_template tid form s) = 1) ∧
    (∀ s : State, countDefault s = 0 → countDefault (get_default_template s).2 = 1) := by
  refine ⟨?_, ?_, ?_⟩
  · intro s form hdef
    unfold create_certificate_template countDefault
    dsimp only
    simp only [hdef, if_true]
    rw [List.filter_append, filter_default_unset]
    simp [hdef]
  · intro s tid form old hdef hfind hnd hcount
    have hoid : old.id = tid := by
      have := List.find?_some hfind
      simpa using this
    have hmemold := List.mem_of_find?_eq_some hfind
    unfold edit_certificate_template
    rw [hfind]
    unfold countDefault
    dsimp only
    apply filter_default_map_unique _ tid _ ?_ ?_ hnd ?_
    · intro t _ht hidd
      simp [hidd, hdef]
    · intro t ht hidd
      have hbeq : (t.id == tid) = false := by simpa using hidd
      by_cases hod : old.is_default = true
      · have hne : t ≠ old := by
          intro heq
          exact hidd (heq ▸ hoid)
        have hfalse : t.is_default = false := by
          apply default_unique_aux hod s.cert_templates hmemold ?_ t ht hne
          rw [List.countP_eq_length_filter]
          exact hcount
        simp [hbeq, hod, hfalse]
      · have hod' : old.is_default = false := by simpa using hod
        by_cases htd : t.is_default = true <;> simp [hbeq, hod', hdef, htd]
    · rw [← hoid]
      exact List.mem_map_of_mem (fun t => t.id) hmemold
  · intro s h0
    have hnil : s.cert_templates.filter (fun t => t.is_default) = [] := by
      unfold countDefault at h0
      exact List.length_eq_zero.mp h0
    have hfn : s.cert_templates.find? (fun t => t.is_default) = none := by
      rw [List.find?_eq_none]
      intro x hx
      have := List.filter_eq_nil_iff.mp hnil x hx
      simpa using this
    unfold get_default_template
    rw [hfn]
    unfold countDefault
    dsimp only
    rw [List.filter_append, hnil]
    rfl

/-! ## Helper lemmas for color parsing -/

theorem hexDigit_bounds {c : Char} {v : Nat} (h : hexDigitVal c = some v) :
    (48 ≤ c.toNat ∧ c.toNat ≤ 57) ∨ (97 ≤ c.toNat ∧ c.toNat ≤ 102) ∨
      (65 ≤ c.toNat ∧ c.toNat ≤ 70) := by
  unfold hexDigitVal at h
  split_ifs at h with h1 h2 h3
  · exact Or.inl h1
  · exact Or.inr (Or.inl h2)
  · exact Or.inr (Or.inr h3)

/-- A hexadecimal digit is none of the special characters the integer
parser treats specially. -/
theorem hexDigit_props {c : Char} {v : Nat} (h : hexDigitVal c = some v) :
    isPySpace c = false ∧ c ≠ '#' ∧ c ≠ '+' ∧ c ≠ '-' ∧ c ≠ '_' ∧
      c ≠ 'x' ∧ c ≠ 'X' := by
  have hb := hexDigit_bounds h
  have hge : 48 ≤ c.toNat := by rcases hb with ⟨h1, -⟩ | ⟨h1, -⟩ | ⟨h1, -⟩ <;> omega
  have hsp : isPySpace c = false := by
    simp only [isPySpace, Bool.or_eq_false_iff, Bool.and_eq_false_iff,
      decide_eq_false_iff_not, not_le]
    omega
  refine ⟨hsp, ?_, ?_, ?_, ?_, ?_, ?_⟩
  · exact fun hc => by subst hc; revert hb; decide
  · exact fun hc => by subst hc; revert hb; decide
  · exact fun hc => by subst hc; revert hb; decide
  · exact fun hc => by subst hc; revert hb; decide
  · exact fun hc => by subst hc; revert hb; decide
  · exact fun hc => by subst hc; revert hb; decide

/-- `int(s, 16)` on a two-character string of hexadecimal digits. -/
theorem pyIntHexL_pair {a b : Char} {va vb : Nat}
    (ha : hexDigitVal a = some va) (hb : hexDigitVal b = some vb) :
    pyIntHexL [a, b] = some ((va * 16 + vb : Nat) : Int) := by
  obtain ⟨hsa, _, hpa, hma, _, _, _⟩ := hexDigit_props ha
  obtain ⟨hsb, _, _, _, hub, hxb, hXb⟩ := hexDigit_props hb
  have hstrip : ((([a, b].dropWhile isPySpace).reverse.dropWhile isPySpace).reverse)
      = [a, b] := by
    simp [List.dropWhile, hsa, hsb]
  unfold pyIntHexL
  rw [hstrip]
  dsimp only
  rw [if_neg hpa, if_neg hma]
  have hpre : ¬ (a = '0' ∧ (b = 'x' ∨ b = 'X')) := by
    rintro ⟨-, hx | hx⟩
    · exact hxb hx
    · exact hXb hx
  unfold pyIntHexCore
  dsimp only
  rw [if_neg hpre]
  unfold hexNum
  dsimp only
  rw [ha]
  dsimp only
  unfold hexTail
  dsimp only
  rw [if_neg hub, hb]
  rfl

/-- C8 refinement, well-formed direction: on a string accepted by the
spec's `#RRGGBB` grammar, `hex_to_rgb` returns the spec's triple. -/
theorem hex_to_rgb_wellformed {s : String} {v : ℚ × ℚ × ℚ}
    (h : specHexTriple s = some v) : hex_to_rgb s = v := by
  unfold specHexTriple at h
  split at h
  case h_2 => cases h
  case h_1 a b c d e f heq =>
    cases hva : hexDigitVal a with
    | none => rw [hva] at h; cases h
    | some va =>
    cases hvb : hexDigitVal b with
    | none => rw [hva, hvb] at h; cases h
    | some vb =>
    cases hvc : hexDigitVal c with
    | none => rw [hva, hvb, hvc] at h; cases h
    | some vc =>
    cases hvd : hexDigitVal d with
    | none => rw [hva, hvb, hvc, hvd] at h; cases h
    | some vd =>
    cases hve : hexDigitVal e with
    | none => rw [hva, hvb, hvc, hvd, hve] at h; cases h
    | some ve =>
    cases hvf : hexDigitVal f with
    | none => rw [hva, hvb, hvc, hvd, hve, hvf] at h; cases h
    | some vf =>
    rw [hva, hvb, hvc, hvd, hve, hvf] at h
    simp only [Option.some_bind, Option.map_some'] at h
    obtain ⟨-, hna, -, -, -, -, -⟩ := hexDigit_props hva
    unfold hex_to_rgb
    rw [heq]
    have hdrop : (('#' :: [a, b, c, d, e, f]).dropWhile fun c => c = '#')
        = [a, b, c, d, e, f] := by
      simp [List.dropWhile_cons, hna]
    dsimp only
    rw [hdrop]
    have h01 : slice2 [a, b, c, d, e, f] 0 = [a, b] := rfl
    have h23 : slice2 [a, b, c, d, e, f] 2 = [c, d] := rfl
    have h45 : slice2 [a, b, c, d, e, f] 4 = [e, f] := rfl
    rw [h01, h23, h45, pyIntHexL_pair hva hvb, pyIntHexL_pair hvc hvd,
      pyIntHexL_pair hve hvf]
    dsimp only
    rw [← Option.some.inj h]
    push_cast
    rfl

theorem hexTail_allowed : ∀ (n : Nat) (cs : List Char), cs.length ≤ n → ∀ (acc m : Nat),
    hexTail acc cs = some m → ∀ c ∈ cs, allowedIntChar c = true := by
  intro n
  induction n with
  | zero =>
    intro cs hlen acc m _h c hc
    rw [List.length_eq_zero.mp (Nat.le_zero.mp hlen)] at hc
    cases hc
  | succ k ih =>
    intro cs hlen acc m h c hc
    cases cs with
    | nil => cases hc
    | cons c0 cs' =>
      unfold hexTail at h
      by_cases h0 : c0 = '_'
      · rw [if_pos h0] at h
        cases cs' with
        | nil => cases h
        | cons c2 cs2 =>
          dsimp only at h
          cases hd : hexDigitVal c2 with
          | none => rw [hd] at h; cases h
          | some v =>
            rw [hd] at h
            rcases List.mem_cons.mp hc with rfl | hc'
            · simp [allowedIntChar, h0]
            · rcases List.mem_cons.mp hc' with rfl | hc''
              · simp [allowedIntChar, hd]
              · refine ih cs2 ?_ _ m h c hc''
                simp only [List.length_cons] at hlen
                omega
      · rw [if_neg h0] at h
        cases hd : hexDigitVal c0 with
        | none => rw [hd] at h; cases h
        | some v =>
          rw [hd] at h
          rcases List.mem_cons.mp hc with rfl | hc'
          · simp [allowedIntChar, hd]
          · refine ih cs' ?_ _ m h c hc'
            simp only [List.length_cons] at hlen
            omega

theorem hexNum_allowed {cs : List Char} {m : Nat} (h : hexNum cs = some m) :
    ∀ c ∈ cs, allowedIntChar c = true := by
  cases cs with
  | nil => intro c hc; cases hc
  | cons c0 cs' =>
    unfold hexNum at h
    dsimp only at h
    cases hd : hexDigitVal c0 with
    | none => rw [hd] at h; cases h
    | some v =>
      rw [hd] at h
      intro c hc
      rcases List.mem_cons.mp hc with rfl | hc'
      · simp [allowedIntChar, hd]
      · exact hexTail_allowed cs'.length cs' le_rfl _ m h c hc'

theorem pyIntHexCore_allowed {cs : List Char} {m : Nat} (h : pyIntHexCore cs = some m) :
    ∀ c ∈ cs, allowedIntChar c = true := by
  cases cs with
  | nil => intro c hc; cases hc
  | cons c0 cs1 =>
    cases cs1 with
    | nil => exact hexNum_allowed h
    | cons x rest =>
      unfold pyIntHexCore at h
      dsimp only at h
      intro c hc
      by_cases hp : c0 = '0' ∧ (x = 'x' ∨ x = 'X')
      · rw [if_pos hp] at h
        rcases List.mem_cons.mp hc with rfl | hc'
        · rw [hp.1]; decide
        · rcases List.mem_cons.mp hc' with rfl | hc''
          · rcases hp.2 with h2 | h2 <;> rw [h2] <;> decide
          · by_cases hh : rest.head? = some '_'
            · rw [if_pos hh] at h
              cases rest with
              | nil => cases hh
              | cons r0 rs =>
                have hr0 : r0 = '_' := by simpa using hh
                subst hr0
                rcases List.mem_cons.mp hc'' with rfl | hcr
                · decide
                · exact hexNum_allowed h c hcr
            · rw [if_neg hh] at h
              exact hexNum_allowed h c hc''
      · rw [if_neg hp] at h
        exact hexNum_allowed h c hc

theorem pyIntHexL_allowed {cs : List Char} {m : Int} (h : pyIntHexL cs = some m) :
    ∀ c ∈ cs, allowedIntChar c = true := by
  intro c hc
  by_cases hac : allowedIntChar c = true
  · exact hac
  · exfalso
    have hsp : isPySpace c = false := by
      cases hspc : isPySpace c
      · rfl
      · exact (hac (by simp [allowedIntChar, hspc])).elim
    have hmemd : ∀ l : List Char, c ∈ l → c ∈ l.dropWhile isPySpace := by
      intro l hl
      have hsplit : l.takeWhile isPySpace ++ l.dropWhile isPySpace = l :=
        List.takeWhile_append_dropWhile isPySpace l
      rw [← hsplit] at hl
      rcases List.mem_append.mp hl with htk | hdr
      · have := List.mem_takeWhile_imp htk
        rw [hsp] at this
        cases this
      · exact hdr
    have hmem2 : c ∈ ((cs.dropWhile isPySpace).reverse.dropWhile isPySpace).reverse := by
      rw [List.mem_reverse]
      exact hmemd _ (List.mem_reverse.mpr (hmemd _ hc))
    unfold pyIntHexL at h
    cases hstr : ((cs.dropWhile isPySpace).reverse.dropWhile isPySpace).reverse with
    | nil =>
      rw [hstr] at hmem2
      cases hmem2
    | cons c0 rest =>
      rw [hstr] at h hmem2
      dsimp only at h
      by_cases hp : c0 = '+'
      · rw [if_pos hp] at h
        obtain ⟨m', hm', -⟩ := Option.map_eq_some'.mp h
        rcases List.mem_cons.mp hmem2 with rfl | hcr
        · exact hac (by simp [allowedIntChar, hp])
        · exact hac (pyIntHexCore_allowed hm' c hcr)
      · rw [if_neg hp] at h
        by_cases hm : c0 = '-'
        · rw [if_pos hm] at h
          obtain ⟨m', hm', -⟩ := Option.map_eq_some'.mp h
          rcases List.mem_cons.mp hmem2 with rfl | hcr
          · exact hac (by simp [allowedIntChar, hm])
          · exact hac (pyIntHexCore_allowed hm' c hcr)
        · rw [if_neg hm] at h
          obtain ⟨m', hm', -⟩ := Option.map_eq_some'.mp h
          exact hac (pyIntHexCore_allowed hm' c hmem2)

/-- When any of the three slices fails to parse, `hex_to_rgb` falls back
to black. -/
theorem hex_to_rgb_fallback {str : String}
    (h : pyIntHexL (slice2 (str.data.dropWhile (fun c => c = '#')) 0) = none ∨
      pyIntHexL (slice2 (str.data.dropWhile (fun c => c = '#')) 2) = none ∨
      pyIntHexL (slice2 (str.data.dropWhile (fun c => c = '#')) 4) = none) :
    hex_to_rgb str = (0, 0, 0) := by
  unfold hex_to_rgb
  dsimp only
  cases h0 : pyIntHexL (slice2 (str.data.dropWhile (fun c => c = '#')) 0) with
  | none => rfl
  | some r =>
    cases h2 : pyIntHexL (slice2 (str.data.dropWhile (fun c => c = '#')) 2) with
    | none => rfl
    | some g =>
      cases h4 : pyIntHexL (slice2 (str.data.dropWhile (fun c => c = '#')) 4) with
      | none => rfl
      | some b =>
        rcases h with h | h | h
        · rw [h0] at h; cases h
        · rw [h2] at h; cases h
        · rw [h4] at h; cases h

/-- C8 (amended) — Color parsing: (1) every well-formed `#RRGGBB` string
is converted to the normalized 0-1 RGB triple; (2) a color string whose
two-character digit slices contain an ASCII character the integer parser
cannot accept (e.g. any letter of `"not-a-color"`; non-ASCII characters
are outside the model, since CPython first maps Unicode digits and
whitespace to ASCII) is substituted with black for the text, the border
AND the background color alike — the white-for-background fallback in
the source is dead code, because `hex_to_rgb` already catches every
parse failure and returns black; (3)
rendering never raises on account of color strings: with a present
settings row, a user and a course, `create_certificate_pdf` writes a
document and returns `True` whatever the color fields hold. -/
theorem C8_color_fallback_amended :
    (∀ (str : String) (v : ℚ × ℚ × ℚ), specHexTriple str = some v → hex_to_rgb str = v) ∧
    (∀ str : String,
       ((slice2 (str.data.dropWhile (fun c => c = '#')) 0).any
          (fun c => isAsciiChar c && !allowedIntChar c) ||
        (slice2 (str.data.dropWhile (fun c => c = '#')) 2).any
          (fun c => isAsciiChar c && !allowedIntChar c) ||
        (slice2 (str.data.dropWhile (fun c => c = '#')) 4).any
          (fun c => isAsciiChar c && !allowedIntChar c)) = true →
       hex_to_rgb str = (0, 0, 0)) ∧
    (∀ (s : State) (st : CertificateSettings) (user : User) (course : Course)
       (cert : Certificate) (path : String),
       s.cert_settings = [st] → s.writeOk = true →
       create_certificate_pdf cert (some user) (some course) path s =
         (writeFile path (FileData.pdf (mkDocument st user course cert s)) s, true)) := by
  refine ⟨fun str v h => hex_to_rgb_wellformed h, ?_, ?_⟩
  · intro str hbad
    apply hex_to_rgb_fallback
    have hfail : ∀ k : Nat,
        (slice2 (str.data.dropWhile (fun c => c = '#')) k).any
          (fun c => isAsciiChar c && !allowedIntChar c) = true →
        pyIntHexL (slice2 (str.data.dropWhile (fun c => c = '#')) k) = none := by
      intro k hk
      obtain ⟨ch, hmem, hbadc⟩ := List.any_eq_true.mp hk
      have hbadc' : (!allowedIntChar ch) = true :=
        (Bool.and_eq_true (isAsciiChar ch) (!allowedIntChar ch) |>.mp hbadc).2
      cases hp : pyIntHexL (slice2 (str.data.dropWhile (fun c => c = '#')) k) with
      | none => rfl
      | some m =>
        have hall := pyIntHexL_allowed hp ch hmem
        rw [hall] at hbadc'
        exact absurd hbadc' (by decide)
    simp only [Bool.or_eq_true] at hbad
    rcases hbad with (h | h) | h
    · exact Or.inl (hfail 0 h)
    · exact Or.inr (Or.inl (hfail 2 h))
    · exact Or.inr (Or.inr (hfail 4 h))
  · intro s st user course cert path hset hw
    unfold create_certificate_pdf getSettings
    simp only [hset, List.head?_cons, hw, if_true]

/-! ## Witnesses and counterexamples -/

/-- C1 witness: two issuance calls on the eligible base state. -/
theorem C1_idempotent_issuance_witness :
    ∃ cert : Certificate,
      cert.certificate_id = "cert-1" ∧
      (∀ r ∈ (issueTimes 1 1 [("cert-1", 7), ("cert-2", 8)] sOK).2, r = some cert) ∧
      certsFor 1 1 (issueTimes 1 1 [("cert-1", 7), ("cert-2", 8)] sOK).1 = [cert] :=
  C1_idempotent_issuance sOK 1 1 u1 course1 e11 defaultCertificateSettings ("cert-1", 7)
    [("cert-2", 8)] rfl rfl rfl rfl rfl rfl rfl rfl rfl rfl

/-- C2 witness: each gate exercised on a state where it actually fires —
certificates disabled on the course in `sGateA`, enrollment not
completed in `sGateB`, `auto_issue` off in `sGateC`; in each state the
other eligibility conditions hold, and issuance returns `none` without
touching the state. -/
theorem C2_eligibility_gating_amended_witness :
    issue_certificate_on_course_completion 1 1 "w" 0 sGateA = (sGateA, none) ∧
    issue_certificate_on_course_completion 1 1 "w" 0 sGateB = (sGateB, none) ∧
    issue_certificate_on_course_completion 1 1 "w" 0 sGateC = (sGateC, none) :=
  ⟨(C2_eligibility_gating_amended sGateA 1 1 "w" 0 defaultCertificateSettings rfl).1
      (fun course hc => by
        have h := Option.some.inj ((rfl : getCourse 1 sGateA = some courseA).symm.trans hc)
        rw [← h]
        rfl),
   (C2_eligibility_gating_amended sGateB 1 1 "w" 0 defaultCertificateSettings rfl).2.1 rfl
      (fun e he => by
        have h := Option.some.inj
          ((rfl : findEnrollment 1 1 sGateB = some e11open).symm.trans he)
        rw [← h]
        rfl),
   (C2_eligibility_gating_amended sGateC 1 1 "w" 0 stC2 rfl).2.2 rfl rfl⟩

/-- C2 counterexample: with an existing certificate for the pair and
`auto_issue` disabled (and the enrollment completed), issuance returns
the existing certificate, not null. -/
theorem C2_counterexample :
    sC2.cert_settings = [stC2] ∧ stC2.auto_issue = false ∧
    findEnrollment 1 1 sC2 = some e11 ∧ e11.completed = true ∧
    (issue_certificate_on_course_completion 1 1 "fresh" 9 sC2).2 = some exCert :=
  ⟨rfl, rfl, rfl, rfl, rfl⟩

/-- C3 witness: issuance on the state whose course references `tpl1`. -/
theorem C3_template_resolution_amended_witness :
    generate_certificate 1 1 "c3" 2 sC3 =
      (freshIssueState sC3 stC3 u1 courseC3 1 1 "c3" 2, some (mkCert sC3 1 1 "c3" 2)) ∧
    (freshIssueState sC3 stC3 u1 courseC3 1 1 "c3" 2).files.head? =
      some (staticJoin (certFilePath "c3"),
        FileData.pdf (mkDocument stC3 u1 courseC3 (mkCert sC3 1 1 "c3" 2) sC3)) ∧
    (mkDocument stC3 u1 courseC3 (mkCert sC3 1 1 "c3" 2) sC3).bg_color =
      hex_to_rgb stC3.background_color ∧
    (mkDocument stC3 u1 courseC3 (mkCert sC3 1 1 "c3" 2) sC3).border_color =
      hex_to_rgb stC3.border_color ∧
    (mkDocument stC3 u1 courseC3 (mkCert sC3 1 1 "c3" 2) sC3).text_color =
      hex_to_rgb stC3.text_color :=
  C3_template_resolution_amended sC3 1 1 "c3" 2 u1 courseC3 stC3 rfl rfl rfl rfl rfl rfl rfl

/-- C3 counterexample: the course references template 1 (which exists),
yet the document written at issuance carries the settings singleton's
text color, which differs from the template's. -/
theorem C3_counterexample :
    getCourse 1 sC3 = some courseC3 ∧
    courseC3.certificate_template_id = some 1 ∧
    sC3.cert_templates.find? (fun t => t.id == 1) = some tpl1 ∧
    ((generate_certificate 1 1 "c3" 2 sC3).1.files.map
      (fun f => match f.2 with
        | FileData.pdf d => some d.text_color
        | FileData.image => none)) = [some (hex_to_rgb stC3.text_color)] ∧
    (hex_to_rgb stC3.text_color).1 ≠ (hex_to_rgb tpl1.text_color).1 := by
  refine ⟨rfl, rfl, rfl, rfl, ?_⟩
  have h1 : hex_to_rgb stC3.text_color =
      (((68 : ℤ) : ℚ) / 255, ((85 : ℤ) : ℚ) / 255, ((102 : ℤ) : ℚ) / 255) := rfl
  have h2 : hex_to_rgb tpl1.text_color =
      (((17 : ℤ) : ℚ) / 255, ((34 : ℤ) : ℚ) / 255, ((51 : ℤ) : ℚ) / 255) := rfl
  rw [h1, h2]
  norm_num

/-- C4 witness: round-trip on the eligible base state. -/
theorem C4_verification_roundtrip_witness :
    (∃ s₂ cert, issue_certificate_on_course_completion 1 1 "cert-4" 7 sOK = (s₂, some cert) ∧
       cert.certificate_id = "cert-4" ∧
       api_verify "cert-4" s₂ =
         Except.ok (VerifyResponse.valid "cert-4" course1.title u1.name 7)) ∧
    (∀ (s' : State) (q : String),
       (∀ c ∈ s'.certificates, ¬ c.certificate_id = q) →
       api_verify q s' = Except.ok VerifyResponse.invalid) :=
  C4_verification_roundtrip sOK 1 1 "cert-4" 7 u1 course1 e11 defaultCertificateSettings
    rfl rfl rfl rfl rfl rfl rfl rfl rfl rfl

/-- C5 witness: issuance with storage down on the eligible base state. -/
theorem C5_storage_failure_amended_witness :
    generate_certificate 1 1 "c5" 3 sC5 =
      ({ sC5 with certificates := sC5.certificates ++ [mkCert sC5 1 1 "c5" 3] }, none) ∧
    certsFor 1 1 { sC5 with certificates := sC5.certificates ++ [mkCert sC5 1 1 "c5" 3] } =
      [mkCert sC5 1 1 "c5" 3] ∧
    (∀ (fid' : String) (now' : Nat),
      generate_certificate 1 1 fid' now'
          { sC5 with certificates := sC5.certificates ++ [mkCert sC5 1 1 "c5" 3] } =
        ({ sC5 with certificates := sC5.certificates ++ [mkCert sC5 1 1 "c5" 3] },
          some (mkCert sC5 1 1 "c5" 3))) :=
  C5_storage_failure_amended sC5 1 1 "c5" 3 u1 course1 defaultCertificateSettings
    rfl rfl rfl rfl rfl rfl rfl rfl

/-- C5 counterexample: the failed-write invocation returns `None` even
though the committed certificate row is in the database. -/
theorem C5_counterexample :
    (generate_certificate 1 1 "c5" 3 sC5).2 = none ∧
    (generate_certificate 1 1 "c5" 3 sC5).1.certificates = [mkCert sC5 1 1 "c5" 3] :=
  ⟨rfl, rfl⟩

/-- C6 witness: regeneration for the record whose file is missing. -/
theorem C6_self_healing_witness :
    generate_certificate 1 1 "unused" 9 sC6 =
      (writeFile (staticJoin exCert.file_path)
        (FileData.pdf (mkDocument defaultCertificateSettings u1 course1 exCert sC6)) sC6,
        some exCert) ∧
    (writeFile (staticJoin exCert.file_path)
        (FileData.pdf (mkDocument defaultCertificateSettings u1 course1 exCert sC6))
        sC6).certificates = sC6.certificates ∧
    fileExists (staticJoin exCert.file_path)
      (writeFile (staticJoin exCert.file_path)
        (FileData.pdf (mkDocument defaultCertificateSettings u1 course1 exCert sC6)) sC6)
      = true ∧
    (mkDocument defaultCertificateSettings u1 course1 exCert sC6).certificate_id =
      exCert.certificate_id :=
  C6_self_healing sC6 1 1 "unused" 9 u1 course1 defaultCertificateSettings exCert
    rfl rfl rfl rfl rfl rfl

/-- C7 witness: the three template operations on concrete tables. -/
theorem C7_single_default_invariant_witness :
    countDefault (create_certificate_template form1 sC3) = 1 ∧
    countDefault (edit_certificate_template 1 form1 sC3) = 1 ∧
    countDefault (get_default_template sOK).2 = 1 :=
  ⟨C7_single_default_invariant.1 sC3 form1 rfl,
   C7_single_default_invariant.2.1 sC3 1 form1 tpl1 rfl rfl (by decide) (by decide),
   C7_single_default_invariant.2.2 sOK rfl⟩

/-- C8 witness: a well-formed hex string, a malformed color string, and a
render with malformed settings colors. -/
theorem C8_color_fallback_amended_witness :
    hex_to_rgb "#112233" =
      (((17 : ℕ) : ℚ) / 255, ((34 : ℕ) : ℚ) / 255, ((51 : ℕ) : ℚ) / 255) ∧
    hex_to_rgb "not-a-color" = (0, 0, 0) ∧
    create_certificate_pdf exCert (some u1) (some course1) "static/out.pdf" sC8 =
      (writeFile "static/out.pdf" (FileData.pdf (mkDocument stC8 u1 course1 exCert sC8)) sC8,
        true) :=
  ⟨C8_color_fallback_amended.1 "#112233" _ rfl,
   C8_color_fallback_amended.2.1 "not-a-color" rfl,
   C8_color_fallback_amended.2.2 sC8 stC8 u1 course1 exCert "static/out.pdf" rfl rfl⟩

/-- C8 counterexample: a malformed background color string is substituted
with black, not white — the document's background is `(0, 0, 0)`. -/
theorem C8_counterexample :
    stC8.background_color = "not-a-color" ∧
    ((create_certificate_pdf exCert (some u1) (some course1) "static/out.pdf" sC8).1.files.map
      (fun f => match f.2 with
        | FileData.pdf d => some d.bg_color
        | FileData.image => none)) = [some ((0 : ℚ), (0 : ℚ), (0 : ℚ))] ∧
    ((0 : ℚ), (0 : ℚ), (0 : ℚ)) ≠ ((1 : ℚ), (1 : ℚ), (1 : ℚ)) := by
  refine ⟨rfl, rfl, ?_⟩
  norm_num

/-- C9 witness: a colliding identifier on a fresh pair. -/
theorem C9_collision_amended_witness :
    generate_certificate 1 1 "X" 5 sC9 = (sC9, none) :=
  C9_collision_amended sC9 1 1 "X" 5 u1 course1 rfl rfl rfl rfl rfl

/-- C9 counterexample: on a collision the single attempt fails and
nothing is persisted — there is no retry with a fresh identifier. -/
theorem C9_counterexample :
    sC9.certificates.any (fun c => c.certificate_id == "X") = true ∧
    generate_certificate 1 1 "X" 5 sC9 = (sC9, none) :=
  ⟨rfl, rfl⟩

/-- C10 witness: file-independence and validity-without-file on the
record whose backing file is absent. -/
theorem C10_verification_file_independent_witness :
    (verify_certificate "X" { sC6 with files := [] } = verify_certificate "X" sC6 ∧
     api_verify "X" { sC6 with files := [] } = api_verify "X" sC6) ∧
    api_verify "X" sC6 =
      Except.ok (VerifyResponse.valid "X" "Verification 101" "Ada Lovelace" 0) :=
  ⟨C10_verification_file_independent.1 sC6 [] "X",
   C10_verification_file_independent.2 sC6 exCert course1 u1 (by decide) (by decide)
     rfl rfl rfl⟩

end CoursePlatform
